import Mathlib

set_option maxRecDepth 8000

/-!  A shallow embedding of `src/main.py` (a minimal browser core: URL
parsing, HTTP retrieval with redirects and a response cache, body framing,
and HTML tag stripping).  Python `str` and `bytes` are both modelled as
`List Char` (`PyStr`), one `Char` per character or byte; UTF-8 decoding
with `errors="replace"` is the identity at this scalar level of modelling.
External collaborators (sockets, TLS, the file system, gzip) enter through
an `Env` record; every socket exchange is recorded in a trace so that
"no socket activity" is observable.  -/

abbrev PyStr := List Char

/-- Python exception taxonomy used by the embedded code. -/
inductive PyErr where
  | ValueError (msg : String)
  | AssertionError (msg : String)
  | AttributeError (msg : String)
  | IndexError (msg : String)
  | UnicodeDecodeError (msg : String)
  | Exception (msg : String)
  | IOError (msg : String)
  deriving DecidableEq

deriving instance DecidableEq for Except

/-- Python `s.startswith(p)` on character lists. -/
def startsWithL : List Char → List Char → Bool
  | _, [] => true
  | [], _ :: _ => false
  | c :: cs, p :: ps => c == p && startsWithL cs ps

/-- Python `s.split(sep, 1)` for a nonempty separator; `none` models the
`ValueError` raised when unpacking two targets fails because the separator
is absent. -/
def splitOnceL (sep : List Char) : List Char → Option (PyStr × PyStr)
  | [] => none
  | c :: cs =>
    if startsWithL (c :: cs) sep then some ([], List.drop sep.length (c :: cs))
    else
      match splitOnceL sep cs with
      | some (a, b) => some (c :: a, b)
      | none => none

/-- Python `s.split(sep)` (full split, nonempty separator), by fuel;
`l.length + 1` fuel always suffices because every separator occurrence
consumes at least one character, so the fuel-0 branch is unreachable. -/
def splitAllFuel (sep : List Char) : Nat → List Char → List PyStr
  | 0, l => [l]
  | fuel + 1, l =>
    match splitOnceL sep l with
    | none => [l]
    | some (a, b) => a :: splitAllFuel sep fuel b

def splitAllL (sep l : List Char) : List PyStr := splitAllFuel sep (l.length + 1) l

/-- Python `s.split(sep, 2)`. -/
def splitN2 (sep l : List Char) : List PyStr :=
  match splitOnceL sep l with
  | none => [l]
  | some (a, b) =>
    match splitOnceL sep b with
    | none => [a, b]
    | some (c, d) => [a, c, d]

/-- ASCII whitespace as recognised by Python `str.strip` (the data this
program manipulates is ASCII). -/
def pyIsSpace (c : Char) : Bool :=
  c.toNat == 32 || c.toNat == 9 || c.toNat == 10 || c.toNat == 13

/-- Python `s.strip()`. -/
def pyStrip (l : PyStr) : PyStr :=
  ((l.dropWhile pyIsSpace).reverse.dropWhile pyIsSpace).reverse

/-- Python `s.casefold()` restricted to ASCII (header names here). -/
def pyLower (l : PyStr) : PyStr :=
  l.map fun c => if 65 ≤ c.toNat ∧ c.toNat ≤ 90 then Char.ofNat (c.toNat + 32) else c

/-- Python substring containment `sub in s`, for nonempty `sub`. -/
def containsSub (l sub : List Char) : Bool := (splitOnceL sub l).isSome

/-- Value of an ASCII decimal digit. -/
def digitVal? (c : Char) : Option Nat :=
  if 48 ≤ c.toNat ∧ c.toNat ≤ 57 then some (c.toNat - 48) else none

/-- Value of an ASCII hexadecimal digit. -/
def hexVal? (c : Char) : Option Nat :=
  if 48 ≤ c.toNat ∧ c.toNat ≤ 57 then some (c.toNat - 48)
  else if 97 ≤ c.toNat ∧ c.toNat ≤ 102 then some (c.toNat - 87)
  else if 65 ≤ c.toNat ∧ c.toNat ≤ 70 then some (c.toNat - 55)
  else none

/-- Positional digit accumulation for `int` parsing. -/
def digitsAcc (dv : Char → Option Nat) (base : Nat) : Nat → List Char → Option Nat
  | acc, [] => some acc
  | acc, c :: cs =>
    match dv c with
    | some d => digitsAcc dv base (acc * base + d) cs
    | none => none

/-- Nonempty all-digit parse (the digit part of Python `int`). -/
def parseNat (dv : Char → Option Nat) (base : Nat) (l : List Char) : Option Nat :=
  match l with
  | [] => none
  | _ => digitsAcc dv base 0 l

/-- Python `int(s)` (base 10): surrounding whitespace stripped, an optional
sign, then a nonempty digit string (underscore grouping is not modelled). -/
def py_int (s : PyStr) : Except PyErr Int :=
  let t := pyStrip s
  let sd : Int × PyStr :=
    if startsWithL t "-".data then (-1, List.drop 1 t)
    else if startsWithL t "+".data then (1, List.drop 1 t)
    else (1, t)
  match parseNat digitVal? 10 sd.2 with
  | some n => .ok (sd.1 * (n : Int))
  | none => .error (.ValueError "invalid literal for int with base 10")

/-- Python `int(s, 16)`: as `py_int` but hexadecimal digits (the optional
`0x` prefix form is not modelled; the program only receives bare digits). -/
def py_int_hex (s : PyStr) : Except PyErr Int :=
  let t := pyStrip s
  let sd : Int × PyStr :=
    if startsWithL t "-".data then (-1, List.drop 1 t)
    else if startsWithL t "+".data then (1, List.drop 1 t)
    else (1, t)
  match parseNat hexVal? 16 sd.2 with
  | some n => .ok (sd.1 * (n : Int))
  | none => .error (.ValueError "invalid literal for int with base 16")

/-- Python `bytes.decode("ascii")`: fails on a byte outside ASCII. -/
def decode_ascii (l : PyStr) : Except PyErr PyStr :=
  if l.all (fun c => c.toNat < 128) then .ok l else .error (.UnicodeDecodeError "ascii")

/-- Python `bytes.decode("utf8", errors="replace")`: at the scalar-value
level of this model it is the identity (it never fails by design). -/
def decode_utf8_replace (l : PyStr) : PyStr := l

/-- Python f-string formatting of a possibly-`None` value. -/
def fmtOpt (o : Option PyStr) : PyStr :=
  match o with
  | some s => s
  | none => "None".data

/-- Python `dict.get`: first binding wins (`dictSet` keeps keys unique). -/
def dictGet {α : Type} (d : List (PyStr × α)) (k : PyStr) : Option α :=
  match d with
  | [] => none
  | (k2, v) :: rest => if k2 = k then some v else dictGet rest k

/-- Python `d[k] = v`: replaces in place, else appends (insertion order of
a Python dict is preserved). -/
def dictSet {α : Type} (d : List (PyStr × α)) (k : PyStr) (v : α) : List (PyStr × α) :=
  match d with
  | [] => [(k, v)]
  | (k2, v2) :: rest => if k2 = k then (k, v) :: rest else (k2, v2) :: dictSet rest k v

/-- Python `response.readline()` on a binary stream: everything up to and
including the first newline (or the whole rest of the stream), together
with the remainder. -/
def readlineB : List Char → PyStr × PyStr
  | [] => ([], [])
  | c :: cs =>
    if c = '\n' then ([c], cs)
    else
      match readlineB cs with
      | (l, r) => (c :: l, r)

/-- The attributes `URL.__init__` leaves on `self` (src/main.py lines
20-84).  Python `None` and a never-assigned attribute (the port of a
`file` URL) are both modelled as `none`.  The `url is None` sentinel
constructor is not modelled: every claim concerns string inputs. -/
structure URLRec where
  url : PyStr
  metascheme : Option PyStr
  scheme : Option PyStr
  host : Option PyStr
  port : Option Int
  path : Option PyStr
  deriving DecidableEq

/-- `URL.__init__` (lines 42-84) on a string url.  The `data` prefix check
precedes the scheme split, and the `view-source:` branch does its own
inline host/path split with a default port and, notably, no `host:port`
split. -/
def URL_init (url : PyStr) : Except PyErr URLRec :=
  if startsWithL url "data".data then
    match splitOnceL ":".data url with
    | none => .error (.ValueError "not enough values to unpack")
    | some (scheme, path) =>
      .ok { url := url, metascheme := none, scheme := some scheme,
            host := none, port := none, path := some path }
  else if startsWithL url "view-source:".data then
    match splitOnceL "://".data (List.drop 12 url) with
    | none => .error (.ValueError "not enough values to unpack")
    | some (scheme, rest) =>
      let hp : PyStr × PyStr :=
        match splitOnceL "/".data rest with
        | some (h, p) => (h, '/' :: p)
        | none => (rest, "/".data)
      .ok { url := url, metascheme := some "view-source".data, scheme := some scheme,
            host := some hp.1,
            port := some (if scheme = "https".data then 443 else 80),
            path := some hp.2 }
  else
    match splitOnceL "://".data url with
    | none => .error (.ValueError "not enough values to unpack")
    | some (scheme, rest) =>
      if scheme = "http".data ∨ scheme = "https".data ∨ scheme = "file".data
          ∨ scheme = "data".data then
        let port0 : Option Int :=
          if scheme = "http".data then some 80
          else if scheme = "https".data then some 443
          else none
        -- when rest has no "/", the code appends one, which splits as (rest, "")
        let hp : PyStr × PyStr :=
          match splitOnceL "/".data rest with
          | some (h, p) => (h, p)
          | none => (rest, [])
        if containsSub hp.1 ":".data then
          match splitOnceL ":".data hp.1 with
          | none => .error (.ValueError "unreachable: separator checked present")
          | some (h, pstr) =>
            match py_int pstr with
            | .error e => .error e
            | .ok p =>
              .ok { url := url, metascheme := none, scheme := some scheme,
                    host := some h, port := some p, path := some ('/' :: hp.2) }
        else
          .ok { url := url, metascheme := none, scheme := some scheme,
                host := some hp.1, port := port0, path := some ('/' :: hp.2) }
      else .error (.AssertionError "Invalid url scheme provided")

/-- `URL.read_chunked` (lines 86-106), by fuel: every iteration consumes at
least one byte, so `stream.length + 1` fuel always suffices, and an
exhausted stream yields an empty size line on which `int` raises the same
`ValueError` the fuel-0 branch carries.  A negative chunk size makes
`response.read` read to the end of the stream, as Python buffered reads
do. -/
def read_chunked_fuel : Nat → PyStr → Except PyErr PyStr
  | 0, _ => .error (.ValueError "invalid literal for int with base 16")
  | fuel + 1, stream =>
    match decode_ascii (readlineB stream).1 with
    | .error e => .error e
    | .ok line =>
      match py_int_hex (pyStrip line) with
      | .error e => .error e
      | .ok size =>
        if size = 0 then .ok []
        else
          let rest := (readlineB stream).2
          let m := if size < 0 then rest.length else size.toNat
          match read_chunked_fuel fuel (readlineB (List.drop m rest)).2 with
          | .error e => .error e
          | .ok more => .ok (List.take m rest ++ more)

def read_chunked (stream : PyStr) : Except PyErr PyStr :=
  read_chunked_fuel (stream.length + 1) stream

/-- `URL.read_http_body` (lines 108-132): transfer framing (chunked, then
content-length, then read-to-close), then gzip content encoding.  `gz`
stands for the external `gzip.decompress`. -/
def read_http_body (gz : PyStr → Except PyErr PyStr)
    (headers : List (PyStr × PyStr)) (stream : PyStr) : Except PyErr PyStr :=
  let rawE : Except PyErr PyStr :=
    if dictGet headers "transfer-encoding".data = some "chunked".data then
      read_chunked stream
    else
      match dictGet headers "content-length".data with
      | some lenS =>
        match py_int lenS with
        | .error e => .error e
        | .ok len => .ok (if len < 0 then stream else List.take len.toNat stream)
      | none => .ok stream
  match rawE with
  | .error e => .error e
  | .ok raw =>
    if dictGet headers "content-encoding".data = some "gzip".data then gz raw
    else .ok raw

/-- The header loop of `URL.request` (lines 225-230): read lines until
`"\r\n"`, split each on the first `":"`, casefold the name, strip the
value; a duplicate name keeps the last value.  By fuel, as above; on an
exhausted stream the empty line has no `":"` and unpacking raises the same
`ValueError` the fuel-0 branch carries. -/
def read_headers_fuel : Nat → PyStr → List (PyStr × PyStr) →
    Except PyErr (List (PyStr × PyStr) × PyStr)
  | 0, _, _ => .error (.ValueError "not enough values to unpack")
  | fuel + 1, stream, acc =>
    match decode_ascii (readlineB stream).1 with
    | .error e => .error e
    | .ok line =>
      if line = "\r\n".data then .ok (acc, (readlineB stream).2)
      else
        match splitOnceL ":".data line with
        | none => .error (.ValueError "not enough values to unpack")
        | some (h, v) =>
          read_headers_fuel fuel (readlineB stream).2 (dictSet acc (pyLower h) (pyStrip v))

def read_headers (stream : PyStr) : Except PyErr (List (PyStr × PyStr) × PyStr) :=
  read_headers_fuel (stream.length + 1) stream []

/-- Status line and header parsing of `URL.request` (lines 218-230): one
line split on `" "` into exactly three fields with an integer status code,
then the header loop; the HTTP version is accepted unvalidated. -/
def parse_status_headers (stream : PyStr) :
    Except PyErr (Int × List (PyStr × PyStr) × PyStr) :=
  match decode_ascii (readlineB stream).1 with
  | .error e => .error e
  | .ok statusline =>
    match splitN2 " ".data statusline with
    | [_version, statusS, _explanation] =>
      match py_int statusS with
      | .error e => .error e
      | .ok status =>
        match read_headers (readlineB stream).2 with
        | .error e => .error e
        | .ok (headers, rest) => .ok (status, headers, rest)
    | _ => .error (.ValueError "not enough values to unpack")

/-- One `response_cache` entry (the dict stored at lines 297-303). -/
structure CacheEntry where
  status_code : Int
  response_headers : List (PyStr × PyStr)
  content : PyStr
  timestamp : Int
  max_age : Int
  deriving DecidableEq

/-- The mutable process state `URL.request` touches: the response cache, a
trace of socket exchanges (host, port, bytes sent), and the clock
(`datetime.now()`, modelled as constant within one fetch). -/
structure St where
  response_cache : List (PyStr × CacheEntry)
  trace : List (Option PyStr × Option Int × PyStr)
  now : Int
  deriving DecidableEq

/-- External collaborators: `serve` yields the response byte stream of one
socket exchange, `fs` is `open(path).read()`, `gz` is `gzip.decompress`. -/
structure Env where
  serve : Option PyStr → Option Int → PyStr → PyStr
  fs : PyStr → Except PyErr PyStr
  gz : PyStr → Except PyErr PyStr

def REDIRECT_LIMIT : Nat := 5

/-- The `max-age` extraction loop (lines 290-293): the last `max-age`
directive wins; `int` failures and a bare `max-age` without `=` raise as
they would in Python. -/
def extract_max_age : List PyStr → Except PyErr (Option Int)
  | [] => .ok none
  | d :: rest =>
    if (splitAllL "=".data d).headD [] = "max-age".data then
      match (splitAllL "=".data d)[1]? with
      | none => .error (.IndexError "list index out of range")
      | some v =>
        match py_int v with
        | .error e => .error e
        | .ok m =>
          match extract_max_age rest with
          | .error e => .error e
          | .ok none => .ok (some m)
          | .ok (some m2) => .ok (some m2)
    else extract_max_age rest

/-- The caching tail of `URL.request` (lines 262-305).  NOTE `content` is
already a decoded `str` there (line 258), so the `content.decode(...)`
call on the unsupported-directive path (line 283) raises `AttributeError`
in Python 3; the embedding reproduces that.  The `no-store` rejection is a
substring test on the raw header value, exactly as in line 286. -/
def finish_caching (u : URLRec) (status : Int) (headers : List (PyStr × PyStr))
    (content : PyStr) (st : St) : Except PyErr PyStr × URLRec × St :=
  match dictGet headers "cache-control".data with
  | none => (.ok content, u, st)
  | some ds =>
    if ds = [] then (.ok content, u, st)
    else if status = 200 ∨ status = 301 ∨ status = 404 then
      let directives := (splitAllL ",".data ds).map pyStrip
      let names := directives.map fun d => (splitAllL "=".data d).headD []
      if names.all (fun nm => nm == "max-age".data || nm == "no-store".data) then
        if containsSub ds "no-store".data then (.ok content, u, st)
        else
          match extract_max_age directives with
          | .error e => (.error e, u, st)
          | .ok none => (.ok content, u, st)
          | .ok (some ma) =>
            let entry : CacheEntry :=
              { status_code := status, response_headers := headers,
                content := content, timestamp := st.now, max_age := ma }
            (.ok content, u,
             { st with response_cache := dictSet st.response_cache u.url entry })
      else (.error (.AttributeError "str object has no attribute decode"), u, st)
    else (.ok content, u, st)

/-- One level of `URL.request` (lines 134-305).  `recur` is the recursive
call with the decremented budget: it is `none` exactly when
`redirects_remaining == 0`, in which case taking a redirect raises the
limit error (line 244-249).  Every socket exchange appends
`(host, port, bytes sent)` to the trace; socket reuse and TLS wrapping
(lines 172-205) have no further observable effect at this level of
modelling, `Env.serve` performing the exchange.  NOTE the cached `content`
is a decoded `str` (line 300), so the `.decode` call on a fresh cache hit
(line 166) raises `AttributeError` in Python 3, which the embedding
reproduces; and a stored `max_age` of `0` is falsy, so line 158 raises on
it exactly like a missing `max_age`. -/
def request_step (env : Env)
    (recur : Option (URLRec → St → Except PyErr PyStr × URLRec × St))
    (u : URLRec) (st : St) : Except PyErr PyStr × URLRec × St :=
  if u.scheme = some "file".data then
    match u.path with
    | none => (.error (.AttributeError "NoneType has no attribute split"), u, st)
    | some p =>
      match splitOnceL "/".data p with
      | none => (.error (.IndexError "list index out of range"), u, st)
      | some (_, p2) =>
        let u2 := { u with path := some p2 }
        match env.fs p2 with
        | .error e => (.error e, u2, st)
        | .ok content => (.ok content, u2, st)
  else if u.scheme = some "data".data then
    match u.path with
    | none => (.error (.AttributeError "NoneType has no attribute split"), u, st)
    | some p =>
      match splitOnceL ",".data p with
      | none => (.error (.ValueError "not enough values to unpack"), u, st)
      | some (ctype, content) =>
        if ctype = "text/html".data then (.ok content, u, st)
        else (.error (.AssertionError "when scheme is data, content_type must be text/html"), u, st)
  else
    let hit : Option (Except PyErr PyStr) :=
      match dictGet st.response_cache u.url with
      | some e =>
        if e.max_age = 0 then
          some (.error (.Exception "max_age is stored in response cache for url: \x7burl\x7d but is None. URLs with no max_age should not be cached."))
        else if st.now - e.timestamp ≤ e.max_age then
          some (.error (.AttributeError "str object has no attribute decode"))
        else none
      | none => none
    match hit with
    | some r => (r, u, st)
    | none =>
      let u2 :=
        if u.metascheme = some "view-source".data then
          { u with path := some ('/' :: (match u.path with
              | some s => if s = [] then [] else s
              | none => [])) }
        else u
      let req : PyStr :=
        "GET ".data ++ fmtOpt u2.path ++ " HTTP/1.0\r\n".data ++
        "Host: ".data ++ fmtOpt u2.host ++ "\r\n".data ++
        "Connection: keep-alive\r\n".data ++
        "User-Agent: yug-patel-browser\r\n".data ++
        "Accept-Encoding: gzip\r\n".data ++
        "\r\n".data
      let st2 := { st with trace := st.trace ++ [(u2.host, u2.port, req)] }
      match parse_status_headers (env.serve u2.host u2.port req) with
      | .error e => (.error e, u2, st2)
      | .ok (status, headers, stream) =>
        if 300 ≤ status ∧ status ≤ 399 then
          match dictGet headers "location".data with
          | none => (.error (.Exception "Redirect with no location header."), u2, st2)
          | some loc =>
            let new_url :=
              if startsWithL loc "/".data then
                fmtOpt u2.scheme ++ "://".data ++ fmtOpt u2.host ++ loc
              else loc
            match recur with
            | none => (.error (.Exception "Redirect limit of \x7bREDIRECT_LIMIT\x7d reached."), u2, st2)
            | some f =>
              match URL_init new_url with
              | .error e => (.error e, u2, st2)
              | .ok u3 =>
                match f u3 st2 with
                | (r, _, st3) => (r, u2, st3)
        else
          match read_http_body env.gz headers stream with
          | .error e => (.error e, u2, st2)
          | .ok raw => finish_caching u2 status headers (decode_utf8_replace raw) st2

/-- `URL.request` with its `redirects_remaining` budget: each hop recurses
with the budget decremented (line 249), and a budget of zero makes the
next redirect fail (line 244). -/
def request (env : Env) : Nat → URLRec → St → Except PyErr PyStr × URLRec × St
  | 0 => request_step env none
  | n + 1 => request_step env (some (request env n))

/-- `lex` (lines 307-337): a single pass with an `in_tag` flag; the
`&lt;`/`&gt;` four-character check runs before the tag-state logic and
only outside a tag.  By fuel: every iteration consumes at least one
character, so `body.length` fuel suffices. -/
def lex_fuel : Nat → List Char → Bool → PyStr
  | 0, _, _ => []
  | _ + 1, [], _ => []
  | fuel + 1, c :: rest, in_tag =>
    if c = '&' ∧ in_tag = false ∧ List.take 4 (c :: rest) = "&lt;".data then
      '<' :: lex_fuel fuel (List.drop 3 rest) in_tag
    else if c = '&' ∧ in_tag = false ∧ List.take 4 (c :: rest) = "&gt;".data then
      '>' :: lex_fuel fuel (List.drop 3 rest) in_tag
    else if c = '<' then lex_fuel fuel rest true
    else if c = '>' then lex_fuel fuel rest false
    else if in_tag = false then c :: lex_fuel fuel rest in_tag
    else lex_fuel fuel rest in_tag

def lex (body : PyStr) : PyStr := lex_fuel body.length body false

/-- `lex_source` (line 363): the view-source passthrough. -/
def lex_source (body : PyStr) : PyStr := body

/-! Concrete scenario environments used by the claim theorems. -/

/-- A file system with no files (fetches in these scenarios never touch it). -/
def fsNone : PyStr → Except PyErr PyStr := fun _ => .error (.IOError "file system not available")

/-- A gzip collaborator that is never called in these scenarios. -/
def gzNone : PyStr → Except PyErr PyStr := fun _ => .error (.Exception "gzip not available")

def st0 : St := ⟨[], [], 0⟩

/-- The request bytes `URL.request` sends for a given path and host. -/
def mkReq (path host : PyStr) : PyStr :=
  "GET ".data ++ path ++ " HTTP/1.0\r\n".data ++
  "Host: ".data ++ host ++ "\r\n".data ++
  "Connection: keep-alive\r\n".data ++
  "User-Agent: yug-patel-browser\r\n".data ++
  "Accept-Encoding: gzip\r\n".data ++
  "\r\n".data

/-- Scenario C1: a 200 response carrying Cache-Control max-age=60. -/
def uC1 : URLRec :=
  { url := "http://example.org/index".data, metascheme := none, scheme := some "http".data,
    host := some "example.org".data, port := some 80, path := some "/index".data }

def respC1 : PyStr :=
  "HTTP/1.0 200 OK\r\ncache-control: max-age=60\r\ncontent-length: 5\r\n\r\nHello".data

def envC1 : Env := ⟨fun _ _ _ => respC1, fsNone, gzNone⟩

def hdrsC1 : List (PyStr × PyStr) :=
  [("cache-control".data, "max-age=60".data), ("content-length".data, "5".data)]

def entryC1 : CacheEntry := ⟨200, hdrsC1, "Hello".data, 1000, 60⟩

/-- Scenario C6: a 200 response whose Cache-Control has an unsupported
directive name. -/
def uC6 : URLRec :=
  { url := "http://example.org/p".data, metascheme := none, scheme := some "http".data,
    host := some "example.org".data, port := some 80, path := some "/p".data }

def respC6 : PyStr :=
  "HTTP/1.0 200 OK\r\ncache-control: private\r\ncontent-length: 4\r\n\r\nBody".data

def envC6 : Env := ⟨fun _ _ _ => respC6, fsNone, gzNone⟩

/-- Scenario C10: a 200 response carrying Cache-Control max-age=0. -/
def uC10 : URLRec :=
  { url := "http://example.org/zero".data, metascheme := none, scheme := some "http".data,
    host := some "example.org".data, port := some 80, path := some "/zero".data }

def respC10 : PyStr :=
  "HTTP/1.0 200 OK\r\ncache-control: max-age=0\r\ncontent-length: 4\r\n\r\nBody".data

def envC10 : Env := ⟨fun _ _ _ => respC10, fsNone, gzNone⟩

def hdrsC10 : List (PyStr × PyStr) :=
  [("cache-control".data, "max-age=0".data), ("content-length".data, "4".data)]

def entryC10 : CacheEntry := ⟨200, hdrsC10, "Body".data, 500, 0⟩

/-- Scenario C3: a starting network URL and three servers: one answering
with an arbitrary 3xx status and no Location, one with a single relative
301 redirect followed by a 200, and one redirecting forever. -/
def uStart : URLRec :=
  { url := "http://example.org/start".data, metascheme := none, scheme := some "http".data,
    host := some "example.org".data, port := some 80, path := some "/start".data }

def c3resp (c2 c3 : Char) : PyStr :=
  "HTTP/1.0 3".data ++ [c2, c3] ++ " NA\r\nfoo: bar\r\n\r\nbody".data

def envNoLoc (c2 c3 : Char) : Env := ⟨fun _ _ _ => c3resp c2 c3, fsNone, gzNone⟩

def respRel301 : PyStr := "HTTP/1.0 301 Moved\r\nlocation: /new\r\n\r\n".data

def respRel200 : PyStr := "HTTP/1.0 200 OK\r\ncontent-length: 7\r\n\r\nNEWBODY".data

def envRel : Env :=
  ⟨fun _ _ req => if startsWithL req "GET /new ".data then respRel200 else respRel301,
   fsNone, gzNone⟩

def respLoop : PyStr := "HTTP/1.0 301 Moved\r\nlocation: /loop\r\n\r\n".data

def envLoop : Env := ⟨fun _ _ _ => respLoop, fsNone, gzNone⟩

/-- Scenario C7: a view-source URL fetched over a 200 server, and a file
URL over a one-file file system. -/
def uVS : URLRec :=
  { url := "view-source:http://example.org/x".data, metascheme := some "view-source".data,
    scheme := some "http".data, host := some "example.org".data, port := some 80,
    path := some "/x".data }

def respVS : PyStr := "HTTP/1.0 200 OK\r\ncontent-length: 2\r\n\r\nok".data

def envVS : Env := ⟨fun _ _ _ => respVS, fsNone, gzNone⟩

def uFile : URLRec :=
  { url := "file:///tmp/x".data, metascheme := none, scheme := some "file".data,
    host := some [], port := none, path := some "/tmp/x".data }

def envFile : Env :=
  ⟨fun _ _ _ => [], fun p => if p = "tmp/x".data then .ok "FILEDATA".data
                             else .error (.IOError "no such file"), gzNone⟩

/-- The ten ASCII digit characters; ranging the two low digits of a status
code over them ranges the status over exactly 300..399. -/
def digitChars : PyStr := "0123456789".data


/-- The redirect-forever scenario URL (every response is a 301 back to
`/loop`). -/
def uLoop : URLRec :=
  { url := "http://example.org/loop".data, metascheme := none, scheme := some "http".data,
    host := some "example.org".data, port := some 80, path := some "/loop".data }

/-- The trace entry of one `/loop` exchange. -/
def eLoop : Option PyStr × Option Int × PyStr :=
  (some "example.org".data, some 80, mkReq "/loop".data "example.org".data)

/-- A trace of `k` consecutive `/loop` exchanges. -/
def trk (k : Nat) : List (Option PyStr × Option Int × PyStr) := List.replicate k eLoop

/-! Helper lemmas shared by the claim theorems. -/

theorem finish_caching_snd (u : URLRec) (status : Int) (headers : List (PyStr × PyStr))
    (content : PyStr) (st : St) : (finish_caching u status headers content st).2.1 = u := by
  unfold finish_caching
  repeat' (first | rfl | split | dsimp only)

theorem loop_step (f : URLRec → St → Except PyErr PyStr × URLRec × St)
    (tr : List (Option PyStr × Option Int × PyStr)) :
    request_step envLoop (some f) uLoop ⟨[], tr, 0⟩
      = (match f uLoop ⟨[], tr ++ [eLoop], 0⟩ with
         | (r, _, st3) => (r, uLoop, st3)) := rfl

theorem request_step_fields (env : Env)
    (rec : Option (URLRec → St → Except PyErr PyStr × URLRec × St))
    (u : URLRec) (st : St) (hm : u.metascheme = none)
    (hs : u.scheme = some "http".data ∨ u.scheme = some "https".data) :
    (request_step env rec u st).2.1 = u := by
  have hf : ¬ u.scheme = some "file".data := by rcases hs with h | h <;> simp [h]
  have hd : ¬ u.scheme = some "data".data := by rcases hs with h | h <;> simp [h]
  unfold request_step
  rw [if_neg hf, if_neg hd]
  simp only [hm]
  repeat' (first | rfl | split | dsimp only | simp only [finish_caching_snd])
  all_goals contradiction

/-! The claim theorems. -/

/-- C1: fetching a URL twice with a 200 response carrying
Cache-Control max-age=60 stores the body on the first fetch; the second
fetch, thirty seconds later, short-circuits before any socket activity
(its trace stays empty), but instead of returning the cached body string
it raises AttributeError, because the stored content is already a decoded
str and line 166 calls decode on it.  This evaluates the code at the
failing input of the claim. -/
theorem c1_cache_hit_attribute_error :
    URL_init "http://example.org/index".data = .ok uC1
    ∧ request envC1 REDIRECT_LIMIT uC1 ⟨[], [], 1000⟩
        = (.ok "Hello".data, uC1,
           ⟨[(uC1.url, entryC1)],
            [(some "example.org".data, some 80, mkReq "/index".data "example.org".data)], 1000⟩)
    ∧ request envC1 REDIRECT_LIMIT uC1 ⟨[(uC1.url, entryC1)], [], 1030⟩
        = (.error (.AttributeError "str object has no attribute decode"), uC1,
           ⟨[(uC1.url, entryC1)], [], 1030⟩) := by
  refine ⟨by decide, by decide, by decide⟩

/-- C2: a response with Content-Length 5 and body bytes Hello and a
chunked response with body bytes 5 CRLF Hello CRLF 0 CRLF CRLF both decode
to Hello, whatever the gzip collaborator is; the chunked reader
concatenates length-prefixed chunks in arrival order until the zero-size
chunk, as the two-chunk instance shows. -/
theorem c2_body_framing (gz : PyStr → Except PyErr PyStr) :
    read_http_body gz [("content-length".data, "5".data)] "Hello".data = .ok "Hello".data
    ∧ read_http_body gz [("transfer-encoding".data, "chunked".data)]
        "5\r\nHello\r\n0\r\n\r\n".data = .ok "Hello".data
    ∧ read_chunked "2\r\nab\r\n3\r\ncde\r\n0\r\n\r\n".data = .ok "abcde".data :=
  ⟨rfl, rfl, rfl⟩

/-- C4: parsing file:///tmp/x strips exactly one authority-separator
slash at parse time, leaving path /tmp/x with its own leading slash (the
host is the empty string and no port is assigned). -/
theorem c4_file_url_parse :
    URL_init "file:///tmp/x".data
      = .ok { url := "file:///tmp/x".data, metascheme := none, scheme := some "file".data,
              host := some [], port := none, path := some "/tmp/x".data } := by
  decide

/-- C5 (counterexample): the input datax://h/p has the scheme part datax,
which is not one of http, https, file, data, yet parsing succeeds, because
the data branch fires on any url that merely starts with the four
characters data and splits on the first colon instead of failing. -/
theorem c5_counterexample :
    URL_init "datax://h/p".data
      = .ok { url := "datax://h/p".data, metascheme := none, scheme := some "datax".data,
              host := none, port := none, path := some "//h/p".data }
    ∧ ¬ ("datax".data ∈ ["http".data, "https".data, "file".data, "data".data]) := by
  decide

/-- C5 (amended): for every input of the form scheme://rest that does not
begin with the four characters data and does not begin with view-source:,
a scheme part outside http, https, file, data makes parsing fail with the
InvalidScheme assertion error. -/
theorem c5_scheme_rejection (u sch rest : PyStr)
    (h1 : startsWithL u "data".data = false)
    (h2 : startsWithL u "view-source:".data = false)
    (h3 : splitOnceL "://".data u = some (sch, rest))
    (h4 : ¬ sch = "http".data) (h5 : ¬ sch = "https".data)
    (h6 : ¬ sch = "file".data) (h7 : ¬ sch = "data".data) :
    URL_init u = .error (.AssertionError "Invalid url scheme provided") := by
  unfold URL_init
  simp only [h1, h2, h3, Bool.false_eq_true, if_false]
  rw [if_neg (by simp [h4, h5, h6, h7])]

theorem c5_scheme_rejection_witness :
    URL_init "foo://bar".data = .error (.AssertionError "Invalid url scheme provided") :=
  c5_scheme_rejection "foo://bar".data "foo".data "bar".data
    (by decide) (by decide) (by decide) (by decide) (by decide) (by decide) (by decide)

/-- C6: a 200 GET response whose Cache-Control contains the directive
private (outside the supported set) stores nothing in the response cache,
but instead of returning the decoded body it raises AttributeError,
because line 283 calls decode on the already-decoded str body.  This
evaluates the code at the failing input of the claim. -/
theorem c6_unsupported_directive_error :
    request envC6 REDIRECT_LIMIT uC6 ⟨[], [], 0⟩
      = (.error (.AttributeError "str object has no attribute decode"), uC6,
         ⟨[], [(some "example.org".data, some 80, mkReq "/p".data "example.org".data)], 0⟩) := by
  decide

/-- C3: for a fetch whose response status is 3xx (the two low status
digits range over all of 300..399): with no Location header the fetch
fails with the missing-location error; a Location beginning with a slash
is resolved against the current scheme and host, as the traced second
request to the same authority with path /new shows, and a single 301 with
Location /new followed by a 200 at /new returns the final body; a chain of
REDIRECT_LIMIT + 1 = 6 consecutive redirects performs exactly six
exchanges, one per budget decrement, and fails with the redirect-limit
error. -/
theorem c3_redirect_handling :
    (∀ c2 ∈ digitChars, ∀ c3 ∈ digitChars,
       py_int ("3".data ++ [c2, c3])
           = .ok ((300 : Int) + 10 * ((digitVal? c2).getD 0 : Nat) + ((digitVal? c3).getD 0 : Nat))
       ∧ (request (envNoLoc c2 c3) REDIRECT_LIMIT uStart st0).1
           = .error (.Exception "Redirect with no location header."))
    ∧ request envRel REDIRECT_LIMIT uStart st0
        = (.ok "NEWBODY".data, uStart,
           ⟨[], [(some "example.org".data, some 80, mkReq "/start".data "example.org".data),
                 (some "example.org".data, some 80, mkReq "/new".data "example.org".data)], 0⟩)
    ∧ request envLoop REDIRECT_LIMIT uLoop st0
        = (.error (.Exception "Redirect limit of \x7bREDIRECT_LIMIT\x7d reached."), uLoop,
           ⟨[], trk 6, 0⟩)
    ∧ (trk 6).length = REDIRECT_LIMIT + 1 := by
  refine ⟨by decide, by decide, ?_, by decide⟩
  have g0 : request envLoop 0 uLoop ⟨[], trk 5, 0⟩
      = (.error (.Exception "Redirect limit of \x7bREDIRECT_LIMIT\x7d reached."), uLoop,
         ⟨[], trk 6, 0⟩) := by decide
  have g1 : request envLoop 1 uLoop ⟨[], trk 4, 0⟩
      = (.error (.Exception "Redirect limit of \x7bREDIRECT_LIMIT\x7d reached."), uLoop,
         ⟨[], trk 6, 0⟩) := by
    show request_step envLoop (some (request envLoop 0)) uLoop ⟨[], trk 4, 0⟩ = _
    rw [loop_step, show trk 4 ++ [eLoop] = trk 5 from by decide, g0]
  have g2 : request envLoop 2 uLoop ⟨[], trk 3, 0⟩
      = (.error (.Exception "Redirect limit of \x7bREDIRECT_LIMIT\x7d reached."), uLoop,
         ⟨[], trk 6, 0⟩) := by
    show request_step envLoop (some (request envLoop 1)) uLoop ⟨[], trk 3, 0⟩ = _
    rw [loop_step, show trk 3 ++ [eLoop] = trk 4 from by decide, g1]
  have g3 : request envLoop 3 uLoop ⟨[], trk 2, 0⟩
      = (.error (.Exception "Redirect limit of \x7bREDIRECT_LIMIT\x7d reached."), uLoop,
         ⟨[], trk 6, 0⟩) := by
    show request_step envLoop (some (request envLoop 2)) uLoop ⟨[], trk 2, 0⟩ = _
    rw [loop_step, show trk 2 ++ [eLoop] = trk 3 from by decide, g2]
  have g4 : request envLoop 4 uLoop ⟨[], trk 1, 0⟩
      = (.error (.Exception "Redirect limit of \x7bREDIRECT_LIMIT\x7d reached."), uLoop,
         ⟨[], trk 6, 0⟩) := by
    show request_step envLoop (some (request envLoop 3)) uLoop ⟨[], trk 1, 0⟩ = _
    rw [loop_step, show trk 1 ++ [eLoop] = trk 2 from by decide, g3]
  have g5 : request envLoop 5 uLoop ⟨[], trk 0, 0⟩
      = (.error (.Exception "Redirect limit of \x7bREDIRECT_LIMIT\x7d reached."), uLoop,
         ⟨[], trk 6, 0⟩) := by
    show request_step envLoop (some (request envLoop 4)) uLoop ⟨[], trk 0, 0⟩ = _
    rw [loop_step, show trk 0 ++ [eLoop] = trk 1 from by decide, g4]
  exact g5

theorem c3_redirect_handling_witness :
    py_int ("3".data ++ ['0', '5'])
        = .ok ((300 : Int) + 10 * ((digitVal? '0').getD 0 : Nat) + ((digitVal? '5').getD 0 : Nat))
    ∧ (request (envNoLoc '0' '5') REDIRECT_LIMIT uStart st0).1
        = .error (.Exception "Redirect with no location header.") :=
  c3_redirect_handling.1 '0' (by decide) '5' (by decide)

/-- C7 (counterexample): a view-source UrlRef parses with path /x, but
performing the fetch mutates the path field to //x (line 170 prepends
another slash), and the request actually sent on the wire carries path
//x, so retrieval does not send the path that parsing produced and the
UrlRef is not left equal to its value at construction. -/
theorem c7_counterexample :
    URL_init "view-source:http://example.org/x".data = .ok uVS
    ∧ uVS.path = some "/x".data
    ∧ (request envVS REDIRECT_LIMIT uVS st0).2.1
        = { uVS with path := some "//x".data }
    ∧ (request envVS REDIRECT_LIMIT uVS st0).2.2.trace
        = [(some "example.org".data, some 80, mkReq "//x".data "example.org".data)]
    ∧ (request envVS REDIRECT_LIMIT uVS st0).1 = .ok "ok".data
    ∧ ¬ ({ uVS with path := some "//x".data } = uVS) := by
  refine ⟨by decide, by decide, by decide, by decide, by decide, by decide⟩

/-- C7 (amended): a fetch of a plain http or https UrlRef with no
metascheme leaves every field equal to its value at construction; but
request rewrites path during retrieval for the file scheme (the leading
slash is dropped before opening) and for view-source (an extra slash is
prepended, so the sent request path differs from the parsed one). -/
theorem c7_field_preservation :
    (∀ (env : Env) (n : Nat) (u : URLRec) (st : St),
        u.metascheme = none →
        (u.scheme = some "http".data ∨ u.scheme = some "https".data) →
        (request env n u st).2.1 = u)
    ∧ request envFile REDIRECT_LIMIT uFile st0
        = (.ok "FILEDATA".data, { uFile with path := some "tmp/x".data }, st0)
    ∧ (request envVS REDIRECT_LIMIT uVS st0).2.1 = { uVS with path := some "//x".data }
    ∧ (request envVS REDIRECT_LIMIT uVS st0).2.2.trace
        = [(some "example.org".data, some 80, mkReq "//x".data "example.org".data)] := by
  refine ⟨?_, by decide, by decide, by decide⟩
  intro env n u st hm hs
  cases n with
  | zero => exact request_step_fields env none u st hm hs
  | succ n2 => exact request_step_fields env (some (request env n2)) u st hm hs

theorem c7_field_preservation_witness :
    (request envC1 3 uC1 st0).2.1 = uC1 :=
  c7_field_preservation.1 envC1 3 uC1 st0 rfl (Or.inl rfl)

/-- C8 (counterexample): parsing view-source:http://host:8080/x keeps the
:8080 suffix inside the host field and leaves the port at the http default
80, contradicting the claim that the host excludes the suffix and the port
equals 8080: the view-source branch never splits host and port. -/
theorem c8_counterexample :
    URL_init "view-source:http://host:8080/x".data
      = .ok { url := "view-source:http://host:8080/x".data,
              metascheme := some "view-source".data, scheme := some "http".data,
              host := some "host:8080".data, port := some 80, path := some "/x".data }
    ∧ ¬ (some "host:8080".data = some "host".data)
    ∧ ¬ (some (80 : Int) = some (8080 : Int)) := by
  decide

/-- C8 (amended): for a view-source URL with an explicit :port in its
authority, parsing does not split it: the host field keeps the :port
suffix and the port field equals the inner scheme default, 80 for http and
443 for https. -/
theorem c8_view_source_port :
    URL_init "view-source:http://host:8080/x".data
      = .ok { url := "view-source:http://host:8080/x".data,
              metascheme := some "view-source".data, scheme := some "http".data,
              host := some "host:8080".data, port := some 80, path := some "/x".data }
    ∧ URL_init "view-source:https://host:8080/x".data
      = .ok { url := "view-source:https://host:8080/x".data,
              metascheme := some "view-source".data, scheme := some "https".data,
              host := some "host:8080".data, port := some 443, path := some "/x".data } := by
  decide

/-- C9: lex on the body p-tag a &lt; b end-tag yields a < b: tag contents
are dropped, the four-character entities &lt; and &gt; decode to angle
brackets outside a tag only (inside a tag they are skipped with the rest
of the tag), and all other non-tag characters are copied verbatim. -/
theorem c9_lex_entities :
    lex "<p>a &lt; b</p>".data = "a < b".data
    ∧ lex "x &gt; y".data = "x > y".data
    ∧ lex "<a &lt; b>z".data = "z".data := by
  decide

/-- C10: a cacheable GET response with Cache-Control max-age=0 stores an
entry whose max_age field is 0, and every subsequent fetch of that exact
URL, at any time and with any redirect budget, raises the cache-invariant
exception (a stored max_age of 0 is falsy, so line 158 treats it like a
missing max_age) instead of treating the entry as stale and refetching. -/
theorem c10_max_age_zero :
    URL_init "http://example.org/zero".data = .ok uC10
    ∧ request envC10 REDIRECT_LIMIT uC10 ⟨[], [], 500⟩
        = (.ok "Body".data, uC10,
           ⟨[(uC10.url, entryC10)],
            [(some "example.org".data, some 80, mkReq "/zero".data "example.org".data)], 500⟩)
    ∧ entryC10.max_age = 0
    ∧ (∀ (n : Nat) (t : Int),
        request envC10 n uC10 ⟨[(uC10.url, entryC10)], [], t⟩
          = (.error (.Exception "max_age is stored in response cache for url: \x7burl\x7d but is None. URLs with no max_age should not be cached."),
             uC10, ⟨[(uC10.url, entryC10)], [], t⟩)) := by
  refine ⟨by decide, by decide, by decide, ?_⟩
  intro n t
  cases n <;> rfl
